import Mathlib

/-!
Shallow embedding of the timetable frontend (student portal SPA).

Each definition mirrors one function or reducer of the source code:

* `Semester.*`       — src/utils/semester-calculator.ts
* `Api.*`            — src/services/api.ts (base URL resolution, the 401
                       response interceptor, and the fallback endpoint
                       chains of studentCourseApi)
* `ReduxPage.*`      — the Redux-backed CourseSelection page and its slice
                       (store/courseSelectionSlice.ts and its page component)
* `QueryPage.*`      — the react-query CourseSelectionPage component
* `Auth.*`           — src/contexts/auth-context.tsx

Browser and network effects (localStorage reads, Date, HTTP responses) are
passed in as explicit arguments; handlers return the new state together
with the list of issued calls, so that what the code does synchronously is
visible in the returned state.
-/

namespace Semester

/-- Embeds calculateCurrentSemester of src/utils/semester-calculator.ts.
The localStorage read and Date are passed in: storedSemester is the
current_semester field of the stored user when present (JS truthy),
batch the parsed batch year (0 when absent), currentYear and
currentMonth come from the Date (getMonth is 0-based). -/
def calculateCurrentSemester (storedSemester : Option Int) (batch : Int)
    (currentYear : Int) (currentMonth : Nat) : Int :=
  match storedSemester with
  | some s => s
  | none =>
    if 0 < batch then
      let yearDifference := currentYear - batch
      let semester := yearDifference * 2 + (if 6 ≤ currentMonth then 1 else 0) + 1
      min (max semester 1) 8
    else
      if 6 ≤ currentMonth then 2 else 1

/-- Embeds calculateAcademicYear: Math.ceil of semester over 2. -/
def calculateAcademicYear (semester : Int) : Int :=
  ⌈(semester : ℚ) / 2⌉

/-- Embeds estimateBatchYear; the Date read of the current year is passed in. -/
def estimateBatchYear (semester : Int) (currentYear : Int) : Int :=
  currentYear - calculateAcademicYear semester + 1

end Semester

namespace Api

/-- Embeds getBaseUrl of src/services/api.ts. The environment variable,
the localStorage override and window.location are passed in; an absent
value is the empty string, matching JS falsiness of null and of the
empty string. -/
def getBaseUrl (envBaseUrl storedBaseUrl hostname protocol : String) : String :=
  if envBaseUrl ≠ "" then envBaseUrl
  else if storedBaseUrl ≠ "" then storedBaseUrl
  else if hostname = "localhost" ∨ hostname = "127.0.0.1" then
    "http://localhost:8000"
  else
    protocol ++ "//" ++ hostname ++ ":8000"

/-- Resolution order as the claim states it: explicit runtime
configuration, then the persisted override, then the environment default,
then the hostname heuristic. Written from the specification text, to be
compared against getBaseUrl. -/
def resolveBaseUrlClaimOrder (runtimeConfig storedBaseUrl envBaseUrl hostname protocol : String) : String :=
  if runtimeConfig ≠ "" then runtimeConfig
  else if storedBaseUrl ≠ "" then storedBaseUrl
  else if envBaseUrl ≠ "" then envBaseUrl
  else if hostname = "localhost" ∨ hostname = "127.0.0.1" then
    "http://localhost:8000"
  else
    protocol ++ "//" ++ hostname ++ ":8000"

/-- JS String.prototype.includes: sub occurs contiguously inside s. -/
def jsIncludes (s sub : String) : Bool :=
  (List.range (s.data.length + 1)).any (fun i => sub.data.isPrefixOf (s.data.drop i))

/-- Effects the 401 branch of the response interceptor can perform. -/
structure SessionEffects where
  tokenRemoved : Bool
  userRemoved : Bool
  redirectedToLogin : Bool
deriving DecidableEq, Repr

/-- No session teardown and no redirect. -/
def noEffects : SessionEffects := ⟨false, false, false⟩

/-- Embeds the isInitialPageLoad test inside the response interceptor:
no referrer, or the referrer contains the own origin. -/
def isInitialPageLoad (referrer origin : String) : Bool :=
  referrer = "" || jsIncludes referrer origin

/-- Embeds the 401 branch of the response interceptor error handler in
src/services/api.ts (lines 181-207): on a 401, when the pathname does
not contain the login route and the load is not the initial page load,
remove token and user from localStorage and redirect to the login page. -/
def handleResponseError (status : Nat) (pathname referrer origin : String) : SessionEffects :=
  if status = 401 then
    if ¬ jsIncludes pathname "/auth/login" then
      if ¬ isInitialPageLoad referrer origin then
        ⟨true, true, true⟩
      else noEffects
    else noEffects
  else noEffects

/-- Result shape of getAvailableSlots: a plain endpoint payload, or the
wrapped payload produced for the generic /api/slot/ endpoint, which adds
a warning string and nests the payload under slots. -/
inductive SlotsResult (α : Type) where
  | plain : α → SlotsResult α
  | genericFallback : String → α → SlotsResult α
deriving DecidableEq, Repr

/-- Warning attached when the generic slot endpoint is used. -/
def genericSlotsWarning : String :=
  "Using generic slots as fallback. Time conflicts may not be detected."

/-- The ordered candidate endpoints of getAvailableSlots in
src/services/api.ts (lines 486-520). -/
def slotEndpoints (courseId teacherId : String) : List String :=
  ["/api/student-courses/courses/available_slots/?course_id=" ++ courseId ++ "&teacher_id=" ++ teacherId,
   "/api/student-courses/courses/filtered_slots/?course_id=" ++ courseId ++ "&teacher_id=" ++ teacherId,
   "/api/timetable/timetables/?course_id=" ++ courseId ++ "&teacher_id=" ++ teacherId,
   "/api/slot/"]

/-- How getAvailableSlots shapes the successful payload, depending on
which endpoint answered. -/
def normalizeSlotsResponse {α : Type} (endpoint : String) (payload : α) : SlotsResult α :=
  if endpoint = "/api/slot/" then SlotsResult.genericFallback genericSlotsWarning payload
  else SlotsResult.plain payload

/-- The for-loop of getAvailableSlots: try each endpoint in order,
return the normalized payload of the first success, remember the last
error and throw it when every endpoint failed. fetch stands for the
network; the second component of the result is the list of endpoints
actually attempted, in order. -/
def runFallback {ε α β : Type} (fetch : String → Except ε α) (normalize : String → α → β) :
    List String → Option ε → Except (Option ε) β × List String
  | [], lastError => (Except.error lastError, [])
  | endpoint :: rest, lastError =>
    match fetch endpoint with
    | Except.ok payload => (Except.ok (normalize endpoint payload), [endpoint])
    | Except.error err =>
      let r := runFallback fetch normalize rest (some err)
      (r.1, endpoint :: r.2)

/-- Embeds studentCourseApi.getAvailableSlots: the fallback loop over
its four candidate endpoints, starting with no recorded error. -/
def getAvailableSlots {ε α : Type} (fetch : String → Except ε α) (courseId teacherId : String) :
    Except (Option ε) (SlotsResult α) × List String :=
  runFallback fetch normalizeSlotsResponse (slotEndpoints courseId teacherId) none

/-- Result shape of getAvailableTeachers: the primary endpoint payload,
or the teacher detail payloads collected through the teacher-course
fallback. -/
inductive TeachersResult (α γ : Type) where
  | primary : α → TeachersResult α γ
  | fromTeacherCourses : List γ → TeachersResult α γ
deriving DecidableEq, Repr

/-- Embeds studentCourseApi.getAvailableTeachers (lines 445-483): try
the primary available_teachers endpoint; on failure fetch the
teacher-course rows for the course and then one detail request per row
(Promise.all rejects with the first failure); if the fallback fails, the
fallback error is rethrown. -/
def getAvailableTeachers {ε α β γ : Type} (fetchPrimary : Except ε α)
    (fetchByCourse : Except ε (List β)) (fetchTeacher : β → Except ε γ) :
    Except ε (TeachersResult α γ) :=
  match fetchPrimary with
  | Except.ok payload => Except.ok (TeachersResult.primary payload)
  | Except.error _ =>
    match fetchByCourse with
    | Except.error e => Except.error e
    | Except.ok teacherCourses =>
      match teacherCourses.mapM fetchTeacher with
      | Except.error e => Except.error e
      | Except.ok teachers => Except.ok (TeachersResult.fromTeacherCourses teachers)

end Api

namespace ReduxPage

/-- Nested course record of the courseSelectionSlice Course interface. -/
structure CourseRef where
  course_name : String
  course_id : String
deriving DecidableEq, Repr

/-- Course entity of the slice state. -/
structure Course where
  id : String
  course_id : CourseRef
deriving DecidableEq, Repr

/-- Nested teacher record of the slice Teacher interface. -/
structure TeacherRef where
  first_name : String
  last_name : String
deriving DecidableEq, Repr

/-- Teacher entity of the slice state. -/
structure Teacher where
  id : String
  teacher_id : TeacherRef
deriving DecidableEq, Repr

/-- Slot entity of the slice state. -/
structure Slot where
  id : String
  day : String
  start_time : String
  end_time : String
deriving DecidableEq, Repr

/-- Confirmed selection entity of the slice state. -/
structure CourseSelection where
  id : String
  course_details : Course
  teacher_details : Teacher
  slot_details : Slot
deriving DecidableEq, Repr

/-- The courseSelectionSlice state. -/
structure CourseSelectionState where
  availableCourses : List Course
  availableTeachers : List Teacher
  availableSlots : List Slot
  myCourseSelections : List CourseSelection
  loading : Bool
  error : Option String
deriving DecidableEq, Repr

/-- The initial slice state. -/
def initialState : CourseSelectionState :=
  ⟨[], [], [], [], false, none⟩

/-- Embeds the deleteCourseSelection.fulfilled reducer case: keep the
selections whose id differs from the deleted id, clear loading. -/
def deleteCourseSelectionFulfilled (state : CourseSelectionState) (payload : String) :
    CourseSelectionState :=
  { state with
    myCourseSelections := state.myCourseSelections.filter (fun selection => selection.id ≠ payload),
    loading := false }

/-- Embeds the createCourseSelection.rejected reducer case. -/
def createCourseSelectionRejected (state : CourseSelectionState) (payload : String) :
    CourseSelectionState :=
  { state with loading := false, error := some payload }

/-- Embeds the createCourseSelection.fulfilled reducer case. -/
def createCourseSelectionFulfilled (state : CourseSelectionState) : CourseSelectionState :=
  { state with loading := false }

/-- Local useState variables of the Redux CourseSelection page; the
empty string is the unset value the component initializes with. -/
structure PageState where
  selectedCourse : String
  selectedTeacher : String
  selectedSlot : String
deriving DecidableEq, Repr

/-- Thunks the Redux page can dispatch. -/
inductive Thunk where
  | fetchAvailableCourses
  | fetchAvailableTeachers (courseId : String)
  | fetchAvailableSlots (courseId teacherId : String)
  | fetchMyCourseSelections
  | createCourseSelection (course_id teacher_id slot_id : String)
  | deleteCourseSelection (id : String)
deriving DecidableEq, Repr

/-- Embeds handleCourseChange: set the course, reset teacher and slot to
the empty string, and dispatch a teacher fetch when the course id is
truthy. Returns the new local state and the dispatched thunks. -/
def handleCourseChange (st : PageState) (courseId : String) : PageState × List Thunk :=
  (⟨courseId, "", ""⟩,
   if courseId ≠ "" then [Thunk.fetchAvailableTeachers courseId] else [])

/-- Embeds handleTeacherChange: set the teacher, reset the slot, and
dispatch a slot fetch keyed by the current course and the new teacher
when both are truthy. -/
def handleTeacherChange (st : PageState) (teacherId : String) : PageState × List Thunk :=
  ({ st with selectedTeacher := teacherId, selectedSlot := "" },
   if teacherId ≠ "" ∧ st.selectedCourse ≠ "" then
     [Thunk.fetchAvailableSlots st.selectedCourse teacherId]
   else [])

/-- Settled result of the awaited createCourseSelection dispatch. -/
inductive CreateOutcome where
  | fulfilled
  | rejected
deriving DecidableEq, Repr

/-- Embeds handleSubmit of the Redux page: when the three selections are
truthy, dispatch the create thunk, reset the form and dispatch a refresh
of the confirmed list; otherwise do nothing. The createOutcome argument
is the settled result of the awaited dispatch: a createAsyncThunk
dispatch resolves whether the thunk fulfils or rejects (rejectWithValue
turns failures into resolved rejected actions), so the statements after
the await run in both cases and do not depend on the outcome. -/
def handleSubmit (st : PageState) (createOutcome : CreateOutcome) : PageState × List Thunk :=
  if st.selectedCourse ≠ "" ∧ st.selectedTeacher ≠ "" ∧ st.selectedSlot ≠ "" then
    (⟨"", "", ""⟩,
     [Thunk.createCourseSelection st.selectedCourse st.selectedTeacher st.selectedSlot,
      Thunk.fetchMyCourseSelections])
  else (st, [])

/-- Recognizes create-selection thunks among the dispatched calls. -/
def isCreateCall : Thunk → Bool
  | Thunk.createCourseSelection _ _ _ => true
  | _ => false

end ReduxPage

namespace QueryPage

/-- Course interface of the react-query CourseSelectionPage; optional
display fields are Option, the untyped raw_data debug field is elided. -/
structure Course where
  id : Int
  course_id : Int
  course_semester : Int
  course_year : Int
  elective_type : String
  for_dept_id : Int
  teaching_dept_id : Int
  lab_type : String
  need_assist_teacher : Bool
  teaching_status : String
  course_name : Option String
  course_code : Option String
  dept_name : Option String
deriving DecidableEq, Repr

/-- Teacher interface of the page (raw_data elided). -/
structure Teacher where
  id : Int
  name : String
  department : String
  available_slots : List String
  teacher_name : Option String
  dept_id : Option Int
deriving DecidableEq, Repr

/-- Slot interface of the page. -/
structure Slot where
  id : Int
  name : String
  day : String
  start_time : String
  end_time : String
  slot_name : Option String
  room : String
  is_from_timetable : Bool
deriving DecidableEq, Repr

/-- CourseSelection interface of the page. -/
structure CourseSelection where
  id : Option Int
  course_id : Int
  teacher_id : Int
  slot_id : Int
deriving DecidableEq, Repr

/-- The three selection useState variables of the page; each starts as
null. -/
structure PageState where
  selectedCourse : Option Course
  selectedTeacher : Option Teacher
  selectedSlot : Option Slot
deriving DecidableEq, Repr

/-- Network-facing calls the page issues through its mutations and the
query client. -/
inductive Call where
  | createSelection (course_id teacher_id slot_id : Int)
  | deleteSelection (id : Int)
  | invalidateMySelections
  | refetchMySelections
deriving DecidableEq, Repr

/-- Toasts the page shows in the paths modelled here. -/
inductive Toast where
  | errorSelectAll
  | successCourseAdded
  | errorCreateFailed
deriving DecidableEq, Repr

/-- Embeds handleSelectCourse: set the course and reset teacher and slot
to null. -/
def handleSelectCourse (st : PageState) (course : Course) : PageState :=
  ⟨some course, none, none⟩

/-- Embeds handleSelectTeacher: set the teacher and reset the slot to
null. -/
def handleSelectTeacher (st : PageState) (teacher : Teacher) : PageState :=
  { st with selectedTeacher := some teacher, selectedSlot := none }

/-- Embeds handleSelectSlot: set the slot. -/
def handleSelectSlot (st : PageState) (slot : Slot) : PageState :=
  { st with selectedSlot := some slot }

/-- Embeds handleSubmit of the page: when any of course, teacher, slot
is null, show an error toast and issue no call; otherwise call
createSelection once with the three ids. -/
def handleSubmit (st : PageState) : List Call × List Toast :=
  match st.selectedCourse, st.selectedTeacher, st.selectedSlot with
  | some c, some t, some s => ([Call.createSelection c.id t.id s.id], [])
  | _, _, _ => ([], [Toast.errorSelectAll])

/-- Embeds the onSuccess callback of the createSelection mutation:
invalidate and refetch the confirmed list, toast, and reset the three
selections to null. Returns the new page state and the issued calls. -/
def createSelectionOnSuccess (st : PageState) : PageState × List Call :=
  (⟨none, none, none⟩, [Call.invalidateMySelections, Call.refetchMySelections])

/-- Embeds the onError callback of the createSelection mutation: it only
logs and shows a toast; the page state and the cached confirmed list are
untouched and no call is issued. -/
def createSelectionOnError (st : PageState) (mySelections : List CourseSelection) :
    (PageState × List CourseSelection) × List Call :=
  ((st, mySelections), [])

end QueryPage

namespace Auth

/-- User shape of auth-context.tsx, after normalization; optional fields
are Option. -/
structure User where
  id : Option String
  student_id : Option String
  email : String
  first_name : String
  last_name : String
  department : Option String
deriving DecidableEq, Repr

/-- Embeds the currentUser queryFn of AuthProvider. The token read from
localStorage, the outcome of authService.getCurrentUser after shape
normalization (ok none stands for a response without data, error for a
thrown request or extraction failure), and the identity restored from
localStorage at mount are passed in. Returns the value the query
resolves with: with no token, null; on a fetched user that fails the
minimal-data check, the thrown error lands in the same catch as a
request failure, which falls back to the stored identity when present
and to null otherwise. -/
def currentUserQueryFn (token : Option String) (fetchResult : Except Unit (Option User))
    (storedUser : Option User) : Option User :=
  match token with
  | none => none
  | some _ =>
    match fetchResult with
    | Except.ok none => none
    | Except.ok (some u) =>
      if u.first_name = "" ∧ u.last_name = "" ∧ u.email = "" ∧ u.id.getD "" = "" then
        match storedUser with
        | some s => some s
        | none => none
      else some u
    | Except.error _ =>
      match storedUser with
      | some s => some s
      | none => none

/-- Embeds the useEffect on the query data in AuthProvider: set the user
from fresh data when present; demote to null only when the data is null
and no stored identity exists; otherwise leave the current user
unchanged. -/
def applyAuthEffect (currentUser : Option User) (data : Option User)
    (storedUser : Option User) : Option User :=
  match data with
  | some u => some u
  | none => if storedUser.isSome then currentUser else none

end Auth

/-! Helper lemmas about the semester arithmetic, shared by the theorems
below. -/

/-- Ceiling of an odd number over two. -/
theorem calculateAcademicYear_odd (k : Int) :
    Semester.calculateAcademicYear (2 * k - 1) = k := by
  unfold Semester.calculateAcademicYear
  rw [Int.ceil_eq_iff]
  constructor
  · push_cast
    linarith
  · push_cast
    linarith

/-- Ceiling of an even number over two. -/
theorem calculateAcademicYear_even (k : Int) :
    Semester.calculateAcademicYear (2 * k) = k := by
  unfold Semester.calculateAcademicYear
  have h : ((2 * k : Int) : ℚ) / 2 = (k : ℚ) := by
    push_cast
    ring
  rw [h, Int.ceil_intCast]

/-- For semesters 1..8 the derived academic year lies in 1..4. -/
theorem calculateAcademicYear_bounds (s : Int) (h1 : 1 ≤ s) (h8 : s ≤ 8) :
    1 ≤ Semester.calculateAcademicYear s ∧ Semester.calculateAcademicYear s ≤ 4 := by
  unfold Semester.calculateAcademicYear
  constructor
  · have hpos : (0 : ℚ) < (s : ℚ) / 2 := by
      have hs : (0 : Int) < s := by omega
      have : (0 : ℚ) < (s : ℚ) := by exact_mod_cast hs
      positivity
    exact Int.ceil_pos.mpr hpos
  · rw [Int.ceil_le, div_le_iff₀ (by norm_num : (0 : ℚ) < 2)]
    have h : (s : ℚ) ≤ 8 := by exact_mod_cast h8
    have h2 : ((4 : Int) : ℚ) * 2 = 8 := by norm_num
    linarith

/-- Re-deriving the semester from a back-computed batch year lands in the
same academic year. -/
theorem semester_roundtrip_aux (k y : Int) (m : Nat) (hk1 : 1 ≤ k) (hk4 : k ≤ 4)
    (hy : k ≤ y) :
    Semester.calculateAcademicYear
      (Semester.calculateCurrentSemester none (y - k + 1) y m) = k := by
  have hb : (0 : Int) < y - k + 1 := by omega
  unfold Semester.calculateCurrentSemester
  simp only [if_pos hb]
  by_cases hm : 6 ≤ m
  · simp only [if_pos hm]
    have h1 : min (max ((y - (y - k + 1)) * 2 + 1 + 1) 1) 8 = 2 * k := by omega
    rw [h1]
    exact calculateAcademicYear_even k
  · simp only [if_neg hm]
    have h1 : min (max ((y - (y - k + 1)) * 2 + 0 + 1) 1) 8 = 2 * k - 1 := by omega
    rw [h1]
    exact calculateAcademicYear_odd k

/-- C7: with no stored semester and a positive batch year,
calculateCurrentSemester returns the elapsed-years formula, doubled, plus
one in the second half of the year, clamped to the semester range 1..8
for every positive batch year; batch 2022 at 2024-08-15 (month index 7)
yields semester 6. -/
theorem calculateCurrentSemester_batch_branch (batch currentYear : Int) (currentMonth : Nat)
    (hb : 0 < batch) :
    Semester.calculateCurrentSemester none batch currentYear currentMonth =
      min (max ((currentYear - batch) * 2 + (if 6 ≤ currentMonth then 1 else 0) + 1) 1) 8 ∧
    1 ≤ Semester.calculateCurrentSemester none batch currentYear currentMonth ∧
    Semester.calculateCurrentSemester none batch currentYear currentMonth ≤ 8 ∧
    Semester.calculateCurrentSemester none 2022 2024 7 = 6 := by
  refine ⟨by simp [Semester.calculateCurrentSemester, hb], ?_, ?_, by decide⟩
  · simp only [Semester.calculateCurrentSemester, if_pos hb]
    omega
  · simp only [Semester.calculateCurrentSemester, if_pos hb]
    omega

/-- Witness for C7 at batch year 2022, date 2024-08-15. -/
theorem calculateCurrentSemester_batch_branch_witness :
    (0 : Int) < 2022 ∧ Semester.calculateCurrentSemester none 2022 2024 7 = 6 :=
  ⟨by decide, (calculateCurrentSemester_batch_branch 2022 2024 7 (by decide)).2.2.2⟩

/-- C8: for semesters 1..8, the academic year is the ceiling of the
semester over two, the estimated batch year is the current year minus the
academic year plus one, and re-deriving the semester from that batch year
lands in the same academic year for every month, whenever the current
year is at least the academic year. -/
theorem academicYear_batchYear_roundtrip (s currentYear : Int) (h1 : 1 ≤ s) (h8 : s ≤ 8)
    (hy : Semester.calculateAcademicYear s ≤ currentYear) :
    Semester.calculateAcademicYear s = ⌈(s : ℚ) / 2⌉ ∧
    Semester.estimateBatchYear s currentYear =
      currentYear - Semester.calculateAcademicYear s + 1 ∧
    (∀ currentMonth : Nat,
      Semester.calculateAcademicYear
        (Semester.calculateCurrentSemester none (Semester.estimateBatchYear s currentYear)
          currentYear currentMonth) = Semester.calculateAcademicYear s) := by
  obtain ⟨hk1, hk4⟩ := calculateAcademicYear_bounds s h1 h8
  refine ⟨rfl, rfl, ?_⟩
  intro currentMonth
  unfold Semester.estimateBatchYear
  exact semester_roundtrip_aux (Semester.calculateAcademicYear s) currentYear currentMonth hk1 hk4 hy

/-- Witness for C8 at semester 5 and current year 2025. -/
theorem academicYear_batchYear_roundtrip_witness :
    (1 : Int) ≤ 5 ∧ (5 : Int) ≤ 8 ∧ Semester.calculateAcademicYear 5 ≤ 2025 ∧
    Semester.calculateAcademicYear
      (Semester.calculateCurrentSemester none (Semester.estimateBatchYear 5 2025) 2025 7) =
      Semester.calculateAcademicYear 5 :=
  have hy : Semester.calculateAcademicYear 5 ≤ 2025 :=
    le_trans (calculateAcademicYear_bounds 5 (by decide) (by decide)).2 (by decide)
  ⟨by decide, by decide, hy,
   (academicYear_batchYear_roundtrip 5 2025 (by decide) (by decide) hy).2.2 7⟩

/-- C6 counterexample: with no runtime configuration, a persisted
override and an environment value both present, the claimed order
(persisted override before environment default) picks the stored value,
but getBaseUrl returns the environment value: the code consults the
environment variable before the persisted override. -/
theorem getBaseUrl_priority_counterexample :
    Api.getBaseUrl "http://env.example" "http://stored.example" "app.example" "https:" = "http://env.example" ∧
    Api.resolveBaseUrlClaimOrder "" "http://stored.example" "http://env.example" "app.example" "https:" = "http://stored.example" ∧
    Api.getBaseUrl "http://env.example" "http://stored.example" "app.example" "https:" ≠
      Api.resolveBaseUrlClaimOrder "" "http://stored.example" "http://env.example" "app.example" "https:" := by
  refine ⟨by decide, by decide, by decide⟩

/-- C6 amended: the base address is resolved in priority order
environment variable, then persisted override, then hostname heuristic
(loopback host gives the local default, any other host the same hostname
on port 8000); the first available source determines the base address. -/
theorem getBaseUrl_priority_amended (envBaseUrl storedBaseUrl hostname protocol : String) :
    (envBaseUrl ≠ "" → Api.getBaseUrl envBaseUrl storedBaseUrl hostname protocol = envBaseUrl) ∧
    (envBaseUrl = "" → storedBaseUrl ≠ "" →
      Api.getBaseUrl envBaseUrl storedBaseUrl hostname protocol = storedBaseUrl) ∧
    (envBaseUrl = "" → storedBaseUrl = "" → (hostname = "localhost" ∨ hostname = "127.0.0.1") →
      Api.getBaseUrl envBaseUrl storedBaseUrl hostname protocol = "http://localhost:8000") ∧
    (envBaseUrl = "" → storedBaseUrl = "" → ¬ (hostname = "localhost" ∨ hostname = "127.0.0.1") →
      Api.getBaseUrl envBaseUrl storedBaseUrl hostname protocol = protocol ++ "//" ++ hostname ++ ":8000") := by
  refine ⟨?_, ?_, ?_, ?_⟩
  · intro he
    simp [Api.getBaseUrl, he]
  · intro he hs
    simp [Api.getBaseUrl, he, hs]
  · intro he hs hh
    simp [Api.getBaseUrl, he, hs, hh]
  · intro he hs hh
    simp [Api.getBaseUrl, he, hs, hh]

/-- Witness for the amended C6: environment value set wins; with only a
stored override, that wins; with neither, the loopback host maps to the
local default and another host maps to the same host on port 8000. -/
theorem getBaseUrl_priority_amended_witness :
    Api.getBaseUrl "http://env.example" "http://stored.example" "localhost" "http:" = "http://env.example" ∧
    Api.getBaseUrl "" "http://stored.example" "localhost" "http:" = "http://stored.example" ∧
    Api.getBaseUrl "" "" "localhost" "http:" = "http://localhost:8000" ∧
    Api.getBaseUrl "" "" "app.example" "https:" = "https://app.example:8000" :=
  ⟨(getBaseUrl_priority_amended "http://env.example" "http://stored.example" "localhost" "http:").1 (by decide),
   (getBaseUrl_priority_amended "" "http://stored.example" "localhost" "http:").2.1 (by decide) (by decide),
   (getBaseUrl_priority_amended "" "" "localhost" "http:").2.2.1 (by decide) (by decide) (by decide),
   (getBaseUrl_priority_amended "" "" "app.example" "https:").2.2.2 (by decide) (by decide) (by decide)⟩

/-- C5: a 401 received off the login route and not on an initial page
load removes the persisted token and user and redirects to the login
screen; a 401 on an initial page load, or on the login route, performs
no teardown and no redirect, and the same holds for any non-401
status. -/
theorem interceptor_401_teardown (status : Nat) (pathname referrer origin : String) :
    (status = 401 → Api.jsIncludes pathname "/auth/login" = false →
      Api.isInitialPageLoad referrer origin = false →
      Api.handleResponseError status pathname referrer origin = ⟨true, true, true⟩) ∧
    (Api.isInitialPageLoad referrer origin = true →
      Api.handleResponseError status pathname referrer origin = Api.noEffects) ∧
    (Api.jsIncludes pathname "/auth/login" = true →
      Api.handleResponseError status pathname referrer origin = Api.noEffects) ∧
    (status ≠ 401 →
      Api.handleResponseError status pathname referrer origin = Api.noEffects) := by
  refine ⟨?_, ?_, ?_, ?_⟩
  · intro h401 hpath hinit
    simp [Api.handleResponseError, h401, hpath, hinit]
  · intro hinit
    simp only [Api.handleResponseError, hinit]
    split
    · split
      · simp
      · rfl
    · rfl
  · intro hpath
    simp [Api.handleResponseError, hpath]
  · intro hne
    simp [Api.handleResponseError, hne]

/-- Witness for C5: a 401 on the dashboard after in-app navigation from
another site tears the session down; a 401 with an in-origin referrer
(initial page load heuristic) does not; a 401 on the login route does
not. -/
theorem interceptor_401_teardown_witness :
    Api.handleResponseError 401 "/dashboard" "http://other.example/p" "http://app.example" =
      ⟨true, true, true⟩ ∧
    Api.handleResponseError 401 "/dashboard" "http://app.example/p" "http://app.example" =
      Api.noEffects ∧
    Api.handleResponseError 401 "/auth/login" "http://other.example/p" "http://app.example" =
      Api.noEffects :=
  ⟨(interceptor_401_teardown 401 "/dashboard" "http://other.example/p" "http://app.example").1
     rfl (by decide) (by decide),
   (interceptor_401_teardown 401 "/dashboard" "http://app.example/p" "http://app.example").2.1
     (by decide),
   (interceptor_401_teardown 401 "/auth/login" "http://other.example/p" "http://app.example").2.2.1
     (by decide)⟩

/-- C1: selecting a new course synchronously resets the selected teacher
and slot to the empty value, and selecting a new teacher synchronously
resets the selected slot, in both the Redux page and the react-query
page; the resets are part of the returned state, before any dispatched
fetch resolves. -/
theorem selection_chain_resets_downstream (st5 : ReduxPage.PageState) (courseId teacherId : String)
    (st6 : QueryPage.PageState) (course : QueryPage.Course) (teacher : QueryPage.Teacher) :
    (ReduxPage.handleCourseChange st5 courseId).1.selectedTeacher = "" ∧
    (ReduxPage.handleCourseChange st5 courseId).1.selectedSlot = "" ∧
    (ReduxPage.handleTeacherChange st5 teacherId).1.selectedSlot = "" ∧
    (QueryPage.handleSelectCourse st6 course).selectedTeacher = none ∧
    (QueryPage.handleSelectCourse st6 course).selectedSlot = none ∧
    (QueryPage.handleSelectTeacher st6 teacher).selectedSlot = none :=
  ⟨rfl, rfl, rfl, rfl, rfl, rfl⟩

/-- C2: submission issues no create-selection call when any of course,
teacher, slot is unset, and exactly one create-selection call carrying
the three chosen ids when all are set, in both pages. -/
theorem handleSubmit_requires_full_selection (st5 : ReduxPage.PageState)
    (outcome : ReduxPage.CreateOutcome) (st6 : QueryPage.PageState) :
    ((st5.selectedCourse = "" ∨ st5.selectedTeacher = "" ∨ st5.selectedSlot = "") →
      (ReduxPage.handleSubmit st5 outcome).2.filter ReduxPage.isCreateCall = []) ∧
    (st5.selectedCourse ≠ "" → st5.selectedTeacher ≠ "" → st5.selectedSlot ≠ "" →
      (ReduxPage.handleSubmit st5 outcome).2.filter ReduxPage.isCreateCall =
        [ReduxPage.Thunk.createCourseSelection st5.selectedCourse st5.selectedTeacher st5.selectedSlot]) ∧
    ((st6.selectedCourse = none ∨ st6.selectedTeacher = none ∨ st6.selectedSlot = none) →
      (QueryPage.handleSubmit st6).1 = []) ∧
    (∀ c t s, st6.selectedCourse = some c → st6.selectedTeacher = some t →
      st6.selectedSlot = some s →
      (QueryPage.handleSubmit st6).1 = [QueryPage.Call.createSelection c.id t.id s.id]) := by
  refine ⟨?_, ?_, ?_, ?_⟩
  · intro hunset
    have hcond : ¬ (st5.selectedCourse ≠ "" ∧ st5.selectedTeacher ≠ "" ∧ st5.selectedSlot ≠ "") := by
      tauto
    simp [ReduxPage.handleSubmit, hcond]
  · intro hc ht hs
    simp [ReduxPage.handleSubmit, hc, ht, hs, ReduxPage.isCreateCall]
  · intro hunset
    rcases hunset with h | h | h <;> simp [QueryPage.handleSubmit, h]
  · intro c t s hc ht hs
    simp [QueryPage.handleSubmit, hc, ht, hs]

/-- Witness for C2: a fully selected Redux form issues exactly one
create call with the chosen ids; an empty react-query form issues no
call. -/
theorem handleSubmit_requires_full_selection_witness :
    (ReduxPage.handleSubmit ⟨"10", "20", "30"⟩ ReduxPage.CreateOutcome.fulfilled).2.filter
        ReduxPage.isCreateCall = [ReduxPage.Thunk.createCourseSelection "10" "20" "30"] ∧
    (QueryPage.handleSubmit ⟨none, none, none⟩).1 = [] :=
  ⟨(handleSubmit_requires_full_selection ⟨"10", "20", "30"⟩ ReduxPage.CreateOutcome.fulfilled
      ⟨none, none, none⟩).2.1 (by decide) (by decide) (by decide),
   (handleSubmit_requires_full_selection ⟨"10", "20", "30"⟩ ReduxPage.CreateOutcome.fulfilled
      ⟨none, none, none⟩).2.2.1 (Or.inl rfl)⟩

/-- C10: the deleteCourseSelection.fulfilled transition keeps exactly the
confirmed selections whose id differs from the deleted id, as a sublist
of the previous list, and leaves availableCourses, availableTeachers,
availableSlots and error unchanged. -/
theorem deleteFulfilled_frame (state : ReduxPage.CourseSelectionState) (payload : String) :
    (∀ sel, sel ∈ (ReduxPage.deleteCourseSelectionFulfilled state payload).myCourseSelections ↔
      (sel ∈ state.myCourseSelections ∧ sel.id ≠ payload)) ∧
    List.Sublist (ReduxPage.deleteCourseSelectionFulfilled state payload).myCourseSelections
      state.myCourseSelections ∧
    (ReduxPage.deleteCourseSelectionFulfilled state payload).availableCourses =
      state.availableCourses ∧
    (ReduxPage.deleteCourseSelectionFulfilled state payload).availableTeachers =
      state.availableTeachers ∧
    (ReduxPage.deleteCourseSelectionFulfilled state payload).availableSlots =
      state.availableSlots ∧
    (ReduxPage.deleteCourseSelectionFulfilled state payload).error = state.error := by
  refine ⟨?_, ?_, rfl, rfl, rfl, rfl⟩
  · intro sel
    simp [ReduxPage.deleteCourseSelectionFulfilled, List.mem_filter]
  · exact List.filter_sublist state.myCourseSelections

/-- C9: while a token exists, a failed background profile refresh makes
the query resolve with the identity restored from persisted storage, and
the effect applying query data to the context never demotes an
authenticated user to anonymous while a stored identity exists; in
particular, after a failed refresh the context still holds the stored
identity. -/
theorem refresh_failure_retains_identity (token : String) (current : Option Auth.User)
    (storedUser : Option Auth.User) (u : Auth.User) (hstored : storedUser = some u) :
    Auth.currentUserQueryFn (some token) (Except.error ()) storedUser = some u ∧
    (∀ data : Option Auth.User, current.isSome →
      (Auth.applyAuthEffect current data storedUser).isSome) ∧
    Auth.applyAuthEffect current
      (Auth.currentUserQueryFn (some token) (Except.error ()) storedUser) storedUser = some u := by
  subst hstored
  refine ⟨rfl, ?_, rfl⟩
  intro data hcur
  cases data with
  | some v => simp [Auth.applyAuthEffect]
  | none => simpa [Auth.applyAuthEffect] using hcur

/-- Witness for C9: with a token, a failed refresh and a stored
identity, the query resolves with the stored identity and the context
keeps it. -/
theorem refresh_failure_retains_identity_witness :
    Auth.currentUserQueryFn (some "tok")
      (Except.error ()) (some ⟨none, none, "s@u.edu", "Stu", "Dent", none⟩) =
      some ⟨none, none, "s@u.edu", "Stu", "Dent", none⟩ ∧
    Auth.applyAuthEffect (some ⟨none, none, "s@u.edu", "Stu", "Dent", none⟩)
      (Auth.currentUserQueryFn (some "tok") (Except.error ())
        (some ⟨none, none, "s@u.edu", "Stu", "Dent", none⟩))
      (some ⟨none, none, "s@u.edu", "Stu", "Dent", none⟩) =
      some ⟨none, none, "s@u.edu", "Stu", "Dent", none⟩ :=
  ⟨(refresh_failure_retains_identity "tok" (some ⟨none, none, "s@u.edu", "Stu", "Dent", none⟩)
      (some ⟨none, none, "s@u.edu", "Stu", "Dent", none⟩) ⟨none, none, "s@u.edu", "Stu", "Dent", none⟩
      rfl).1,
   (refresh_failure_retains_identity "tok" (some ⟨none, none, "s@u.edu", "Stu", "Dent", none⟩)
      (some ⟨none, none, "s@u.edu", "Stu", "Dent", none⟩) ⟨none, none, "s@u.edu", "Stu", "Dent", none⟩
      rfl).2.2⟩

/-- C3 counterexample: in the Redux page, a submission whose awaited
create dispatch settles as rejected still resets the three transient
selections, because the code after the await runs regardless of the
outcome; the selections are not left intact for retry. -/
theorem failed_create_leaves_selections_counterexample :
    ¬ ((ReduxPage.handleSubmit ⟨"1", "2", "3"⟩ ReduxPage.CreateOutcome.rejected).1 =
        (⟨"1", "2", "3"⟩ : ReduxPage.PageState)) := by
  decide

/-- C3 amended: on a failed creation no item is added to the confirmed
list in either implementation (the react-query onError touches neither
the page state nor the cached list, and the Redux rejected reducer
leaves myCourseSelections unchanged), and the react-query page leaves
the three transient selections unchanged; the Redux page instead resets
the three transient selections after the awaited dispatch regardless of
the outcome. -/
theorem failed_create_amended (st6 : QueryPage.PageState)
    (mySelections : List QueryPage.CourseSelection)
    (slice : ReduxPage.CourseSelectionState) (msg : String) (st5 : ReduxPage.PageState)
    (hc : st5.selectedCourse ≠ "") (ht : st5.selectedTeacher ≠ "") (hs : st5.selectedSlot ≠ "") :
    QueryPage.createSelectionOnError st6 mySelections = ((st6, mySelections), []) ∧
    (ReduxPage.createCourseSelectionRejected slice msg).myCourseSelections =
      slice.myCourseSelections ∧
    (ReduxPage.handleSubmit st5 ReduxPage.CreateOutcome.rejected).1 =
      (⟨"", "", ""⟩ : ReduxPage.PageState) := by
  refine ⟨rfl, rfl, ?_⟩
  simp [ReduxPage.handleSubmit, hc, ht, hs]

/-- Witness for the amended C3 at a fully selected Redux form. -/
theorem failed_create_amended_witness :
    (ReduxPage.handleSubmit ⟨"1", "2", "3"⟩ ReduxPage.CreateOutcome.rejected).1 =
      (⟨"", "", ""⟩ : ReduxPage.PageState) :=
  (failed_create_amended ⟨none, none, none⟩ [] ReduxPage.initialState "err" ⟨"1", "2", "3"⟩
    (by decide) (by decide) (by decide)).2.2

/-- The fallback loop returns the normalized payload of the first
successful endpoint and attempts exactly the endpoints up to it. -/
theorem runFallback_firstSuccess {ε α β : Type} (fetch : String → Except ε α)
    (normalize : String → α → β) :
    ∀ (endpoints : List String) (acc : Option ε) (k : Nat) (hk : k < endpoints.length) (v : α),
      (∀ i (hi : i < k), ∃ err, fetch (endpoints.get ⟨i, lt_trans hi hk⟩) = Except.error err) →
      fetch (endpoints.get ⟨k, hk⟩) = Except.ok v →
      Api.runFallback fetch normalize endpoints acc =
        (Except.ok (normalize (endpoints.get ⟨k, hk⟩) v), endpoints.take (k + 1)) := by
  intro endpoints
  induction endpoints with
  | nil =>
    intro acc k hk v hfail hok
    exact absurd hk (by simp)
  | cons e rest ih =>
    intro acc k hk v hfail hok
    cases k with
    | zero =>
      have he : fetch e = Except.ok v := hok
      simp only [Api.runFallback, he]
      rfl
    | succ k =>
      obtain ⟨err, herr⟩ := hfail 0 (Nat.succ_pos k)
      have he : fetch e = Except.error err := herr
      have hk2 : k < rest.length := Nat.lt_of_succ_lt_succ hk
      have ih2 := ih (some err) k hk2 v
        (fun i hi => hfail (i + 1) (Nat.succ_lt_succ hi)) hok
      simp only [Api.runFallback, he, ih2]
      rfl

/-- When every endpoint fails, the fallback loop propagates the error of
the last endpoint. -/
theorem runFallback_allFail {ε α β : Type} (fetch : String → Except ε α)
    (normalize : String → α → β) (errOf : String → ε) :
    ∀ (endpoints : List String) (last : String),
      endpoints.getLast? = some last →
      (∀ e ∈ endpoints, fetch e = Except.error (errOf e)) →
      ∀ acc, (Api.runFallback fetch normalize endpoints acc).1 =
        Except.error (some (errOf last)) := by
  intro endpoints
  induction endpoints with
  | nil =>
    intro last hlast
    simp at hlast
  | cons e rest ih =>
    intro last hlast hfail acc
    have he : fetch e = Except.error (errOf e) := hfail e (by simp)
    simp only [Api.runFallback, he]
    cases rest with
    | nil =>
      simp at hlast
      subst hlast
      simp [Api.runFallback]
    | cons f rest2 =>
      have hlast2 : (f :: rest2).getLast? = some last := by
        simpa [List.getLast?_cons_cons] using hlast
      exact ih last hlast2 (fun x hx => hfail x (by simp [hx])) (some (errOf e))

/-- C4: in the slot fallback chain, if the endpoints before position k
fail and the endpoint at k succeeds, getAvailableSlots returns that
endpoint's normalized payload and attempts no endpoint after it; if all
endpoints fail, the error of the last endpoint (the generic /api/slot/)
propagates; in the teacher chain, a successful primary endpoint is
returned without consulting the fallback, and when both stages fail the
error of the last (fallback) attempt propagates. -/
theorem fallback_chain_behavior {ε α : Type} (fetch : String → Except ε α)
    (courseId teacherId : String) :
    (∀ (k : Nat) (hk : k < (Api.slotEndpoints courseId teacherId).length) (v : α),
      (∀ i (hi : i < k), ∃ err,
        fetch ((Api.slotEndpoints courseId teacherId).get ⟨i, lt_trans hi hk⟩) =
          Except.error err) →
      fetch ((Api.slotEndpoints courseId teacherId).get ⟨k, hk⟩) = Except.ok v →
      Api.getAvailableSlots fetch courseId teacherId =
        (Except.ok (Api.normalizeSlotsResponse
            ((Api.slotEndpoints courseId teacherId).get ⟨k, hk⟩) v),
         (Api.slotEndpoints courseId teacherId).take (k + 1))) ∧
    (∀ errOf : String → ε,
      (∀ e ∈ Api.slotEndpoints courseId teacherId, fetch e = Except.error (errOf e)) →
      (Api.getAvailableSlots fetch courseId teacherId).1 =
        Except.error (some (errOf "/api/slot/"))) ∧
    (∀ (β γ : Type) (p : α) (fetchByCourse : Except ε (List β)) (fetchTeacher : β → Except ε γ),
      Api.getAvailableTeachers (Except.ok p) fetchByCourse fetchTeacher =
        Except.ok (Api.TeachersResult.primary p)) ∧
    (∀ (β γ : Type) (e1 e2 : ε) (fetchTeacher : β → Except ε γ),
      Api.getAvailableTeachers (α := α) (Except.error e1) (Except.error e2) fetchTeacher =
        Except.error e2) := by
  refine ⟨?_, ?_, ?_, ?_⟩
  · intro k hk v hfail hok
    exact runFallback_firstSuccess fetch Api.normalizeSlotsResponse
      (Api.slotEndpoints courseId teacherId) none k hk v hfail hok
  · intro errOf hfail
    exact runFallback_allFail fetch Api.normalizeSlotsResponse errOf
      (Api.slotEndpoints courseId teacherId) "/api/slot/" rfl hfail none
  · intro β γ p fetchByCourse fetchTeacher
    rfl
  · intro β γ e1 e2 fetchTeacher
    rfl

/-- Witness for C4: with the primary slot endpoint down and the second
endpoint answering, getAvailableSlots returns the second payload after
two attempts; with every endpoint down, the error of the generic
/api/slot/ endpoint propagates; a successful primary teacher endpoint
short-circuits, and two failed teacher stages propagate the fallback
error. -/
theorem fallback_chain_behavior_witness :
    Api.getAvailableSlots
        (fun e =>
          if e = "/api/student-courses/courses/available_slots/?course_id=1&teacher_id=2" then
            (Except.error "primary down" : Except String Nat)
          else Except.ok 7) "1" "2" =
      (Except.ok (Api.normalizeSlotsResponse
          ((Api.slotEndpoints "1" "2").get ⟨1, by decide⟩) 7),
       (Api.slotEndpoints "1" "2").take 2) ∧
    (Api.getAvailableSlots (fun e => (Except.error ("down " ++ e) : Except String Nat)) "1" "2").1 =
      Except.error (some ("down " ++ "/api/slot/")) ∧
    Api.getAvailableTeachers (Except.ok 5) (Except.error "x" : Except String (List Nat))
        (fun _ => (Except.error "x" : Except String Nat)) =
      Except.ok (Api.TeachersResult.primary 5) ∧
    Api.getAvailableTeachers (α := Nat) (Except.error "primary down")
        (Except.error "fallback down" : Except String (List Nat))
        (fun _ => (Except.error "y" : Except String Nat)) =
      Except.error "fallback down" :=
  ⟨(fallback_chain_behavior
      (fun e =>
        if e = "/api/student-courses/courses/available_slots/?course_id=1&teacher_id=2" then
          (Except.error "primary down" : Except String Nat)
        else Except.ok 7) "1" "2").1 1 (by decide) 7
      (fun i hi => by
        have h0 : i = 0 := by omega
        subst h0
        exact ⟨"primary down", rfl⟩)
      rfl,
   (fallback_chain_behavior (fun e => (Except.error ("down " ++ e) : Except String Nat))
      "1" "2").2.1 (fun e => "down " ++ e) (fun e _ => rfl),
   (fallback_chain_behavior (fun _ => (Except.error "unused" : Except String Nat))
      "1" "2").2.2.1 Nat Nat 5 (Except.error "x")
      (fun _ => (Except.error "x" : Except String Nat)),
   (fallback_chain_behavior (fun _ => (Except.error "unused" : Except String Nat))
      "1" "2").2.2.2 Nat Nat "primary down" "fallback down"
      (fun _ => (Except.error "y" : Except String Nat))⟩

